import Mathlib

/-!
Verification of the Tastory Search & Discovery Engine specification
against the repository sources.

The repository ships the React/vanilla-JS frontend (frontend/src/App.js,
frontend/public/script.js, frontend/src/ErrorBoundary.js,
frontend/src/components/TrendingSearches.js) together with product
documentation (docs/CI_STATUS_SUMMARY.md) describing the trending
algorithm.  The Flask backend implementing the Hybrid Retriever, Spell
Corrector, Suggestion Index and Trending Aggregator is referenced
(README: `python app.py`) but its source is not part of the tree, so
those operations are modelled from the specification; frontend behaviour
is embedded directly from the JavaScript sources.
-/

namespace Tastory

/-- Page size of the Hybrid Retriever (spec section 3: fixed page size 12). -/
def PAGE_SIZE : Nat := 12

/-- Maximum number of published trending items (spec: K = 10). -/
def TRENDING_K : Nat := 10

/-- Minimum daily count for a query to qualify as trending (spec: MIN_COUNT = 5). -/
def MIN_COUNT : Nat := 5

/-- A corpus entry as seen by the Hybrid Retriever after scoring one query:
the recipe id paired with its blended relevance score. -/
structure ScoredEntry where
  id : Nat
  score : ℚ
deriving DecidableEq

/-- Ranking order of the retriever: higher blended score first, ties broken
by recipe id ascending (spec section 4.3). -/
def RankRel (a b : ScoredEntry) : Prop :=
  b.score < a.score ∨ (a.score = b.score ∧ a.id ≤ b.id)

instance : DecidableRel RankRel := fun x y =>
  inferInstanceAs (Decidable (y.score < x.score ∨ (x.score = y.score ∧ x.id ≤ y.id)))

instance : IsTotal ScoredEntry RankRel where
  total a b := by
    rcases lt_trichotomy a.score b.score with h | h | h
    · exact Or.inr (Or.inl h)
    · rcases le_total a.id b.id with hid | hid
      · exact Or.inl (Or.inr ⟨h, hid⟩)
      · exact Or.inr (Or.inr ⟨h.symm, hid⟩)
    · exact Or.inl (Or.inl h)

instance : IsTrans ScoredEntry RankRel where
  trans a b c hab hbc := by
    rcases hab with h1 | ⟨h1, h1i⟩ <;> rcases hbc with h2 | ⟨h2, h2i⟩
    · exact Or.inl (h2.trans h1)
    · exact Or.inl (h2 ▸ h1)
    · exact Or.inl (h1 ▸ h2)
    · exact Or.inr ⟨h1.trans h2, h1i.trans h2i⟩

instance : IsAntisymm ScoredEntry RankRel where
  antisymm a b hab hba := by
    obtain ⟨ai, as⟩ := a
    obtain ⟨bi, bs⟩ := b
    rcases hab with h1 | ⟨h1, h1i⟩ <;> rcases hba with h2 | ⟨h2, h2i⟩
    · exact absurd h1 (not_lt_of_lt h2)
    · exact absurd h1 (h2 ▸ lt_irrefl _)
    · exact absurd h2 (h1 ▸ lt_irrefl _)
    · simp only at h1 h1i h2i
      simp [h1, le_antisymm h1i h2i]

/-- A query is blank when it is empty or consists only of whitespace. -/
def isBlank (s : String) : Bool := s.data.all (fun c => c.isWhitespace)

/-- Result shape of the Hybrid Retriever contract (spec section 4.3),
extended with a flag recording whether the corpus was consulted. -/
structure SearchResult where
  results : List Nat
  totalResults : Nat
  totalPages : Nat
  currentPage : Nat
  retrievalAttempted : Bool
deriving DecidableEq

/-- Modelled from the spec: the backend Hybrid Retriever (`search` of the
Flask service, absent from the tree).  Blank queries short-circuit with an
empty result and no retrieval; otherwise the scored corpus is ranked by
`RankRel` (score descending, id ascending), the requested page is clamped
into range, and one page of size 12 is returned (spec section 4.3). -/
def searchModel (entries : List ScoredEntry) (query : String) (page : Int) :
    SearchResult :=
  if isBlank query then
    { results := [], totalResults := 0, totalPages := 0, currentPage := 1,
      retrievalAttempted := false }
  else
    let ranked := (List.insertionSort RankRel entries).map ScoredEntry.id
    let total := ranked.length
    let pages := (total + PAGE_SIZE - 1) / PAGE_SIZE
    let current := min (max page 1).toNat (max pages 1)
    { results := (ranked.drop ((current - 1) * PAGE_SIZE)).take PAGE_SIZE,
      totalResults := total, totalPages := pages, currentPage := current,
      retrievalAttempted := true }

/-- The ranked id list the retriever paginates: corpus sorted by `RankRel`. -/
def rankedIds (entries : List ScoredEntry) : List Nat :=
  (List.insertionSort RankRel entries).map ScoredEntry.id

lemma searchModel_eq_of_not_blank (entries : List ScoredEntry) (query : String)
    (page : Int) (h : isBlank query = false) :
    searchModel entries query page =
      { results := ((rankedIds entries).drop
          ((min (max page 1).toNat (max (((rankedIds entries).length + 12 - 1) / 12) 1) - 1)
            * 12)).take 12,
        totalResults := (rankedIds entries).length,
        totalPages := ((rankedIds entries).length + 12 - 1) / 12,
        currentPage := min (max page 1).toNat
          (max (((rankedIds entries).length + 12 - 1) / 12) 1),
        retrievalAttempted := true } := by
  simp [searchModel, h, PAGE_SIZE, rankedIds]

lemma searchModel_of_blank (entries : List ScoredEntry) (query : String)
    (page : Int) (h : isBlank query = true) :
    searchModel entries query page =
      { results := [], totalResults := 0, totalPages := 0, currentPage := 1,
        retrievalAttempted := false } := by
  simp [searchModel, h]

lemma ceil_div_twelve (n : ℕ) : (n + 12 - 1) / 12 = ⌈(n : ℚ) / 12⌉₊ := by
  have h11 : n + 12 - 1 = n + 11 := by omega
  rw [h11]
  rcases Nat.eq_zero_or_pos n with h | h
  · subst h; simp
  · have hm1 : 1 ≤ (n + 11) / 12 := by omega
    have h2 : n ≤ 12 * ((n + 11) / 12) := by omega
    have h3 : 12 * ((n + 11) / 12 - 1) < n := by omega
    rw [eq_comm, Nat.ceil_eq_iff (by omega)]
    constructor
    · rw [lt_div_iff₀ (by norm_num : (0 : ℚ) < 12)]
      calc ((((n + 11) / 12 - 1 : ℕ) : ℚ)) * 12
          = ((12 * ((n + 11) / 12 - 1) : ℕ) : ℚ) := by push_cast; ring
        _ < n := by exact_mod_cast Nat.cast_lt.mpr h3
    · rw [div_le_iff₀ (by norm_num : (0 : ℚ) < 12)]
      calc ((n : ℚ)) ≤ ((12 * ((n + 11) / 12) : ℕ) : ℚ) := by exact_mod_cast h2
        _ = (((n + 11) / 12 : ℕ) : ℚ) * 12 := by push_cast; ring

/-- C1: for every query and requested page, `totalPages = ⌈totalResults / 12⌉`;
when `totalPages > 0` the returned `currentPage` lies in `[1, totalPages]`
(a requested page smaller than 1 is clamped to 1); when `totalPages = 0` the
results are empty; and `search(query, 1).currentPage = 1` for every query. -/
theorem search_pagination_invariant (entries : List ScoredEntry) (query : String)
    (page : Int) :
    (searchModel entries query page).totalPages
        = ⌈((searchModel entries query page).totalResults : ℚ) / 12⌉₊
    ∧ (0 < (searchModel entries query page).totalPages →
        1 ≤ (searchModel entries query page).currentPage
        ∧ (searchModel entries query page).currentPage
            ≤ (searchModel entries query page).totalPages)
    ∧ ((searchModel entries query page).totalPages = 0 →
        (searchModel entries query page).results = [])
    ∧ (page < 1 → searchModel entries query page = searchModel entries query 1)
    ∧ (searchModel entries query 1).currentPage = 1 := by
  rcases Bool.eq_false_or_eq_true (isBlank query) with hb | hb
  · rw [searchModel_of_blank entries query page hb,
      searchModel_of_blank entries query 1 hb]
    dsimp only
    refine ⟨by simp, by omega, fun _ => rfl, fun _ => rfl, rfl⟩
  · rw [searchModel_eq_of_not_blank entries query page hb,
      searchModel_eq_of_not_blank entries query 1 hb]
    dsimp only
    refine ⟨?_, ?_, ?_, ?_, ?_⟩
    · exact ceil_div_twelve (rankedIds entries).length
    · intro hp
      constructor <;> omega
    · intro hp
      have htot : (rankedIds entries).length = 0 := by omega
      rw [List.eq_nil_of_length_eq_zero htot]
      simp
    · intro hp
      have h1 : max page 1 = 1 := by omega
      rw [h1, max_self]
    · omega

theorem search_pagination_invariant_witness :
    ((searchModel [⟨1, 2⟩] "pasta" 0).totalPages
        = ⌈((searchModel [⟨1, 2⟩] "pasta" 0).totalResults : ℚ) / 12⌉₊)
    ∧ (0 < (searchModel [⟨1, 2⟩] "pasta" 0).totalPages →
        1 ≤ (searchModel [⟨1, 2⟩] "pasta" 0).currentPage
        ∧ (searchModel [⟨1, 2⟩] "pasta" 0).currentPage
            ≤ (searchModel [⟨1, 2⟩] "pasta" 0).totalPages)
    ∧ ((searchModel [⟨1, 2⟩] "pasta" 0).totalPages = 0 →
        (searchModel [⟨1, 2⟩] "pasta" 0).results = [])
    ∧ ((0 : Int) < 1 → searchModel [⟨1, 2⟩] "pasta" 0 = searchModel [⟨1, 2⟩] "pasta" 1)
    ∧ (searchModel [⟨1, 2⟩] "pasta" 1).currentPage = 1 :=
  search_pagination_invariant [⟨1, 2⟩] "pasta" 0

/-- C2: for every empty or whitespace-only query, search performs no retrieval
attempt and returns `totalResults = 0`, an empty results list, and
`totalPages = 0`. -/
theorem search_blank_no_retrieval (entries : List ScoredEntry) (query : String)
    (page : Int) (h : isBlank query = true) :
    (searchModel entries query page).retrievalAttempted = false
    ∧ (searchModel entries query page).totalResults = 0
    ∧ (searchModel entries query page).results = []
    ∧ (searchModel entries query page).totalPages = 0 := by
  simp [searchModel, h]

theorem search_blank_no_retrieval_witness :
    isBlank "   " = true
    ∧ ((searchModel [⟨1, 2⟩] "   " 1).retrievalAttempted = false
      ∧ (searchModel [⟨1, 2⟩] "   " 1).totalResults = 0
      ∧ (searchModel [⟨1, 2⟩] "   " 1).results = []
      ∧ (searchModel [⟨1, 2⟩] "   " 1).totalPages = 0) :=
  ⟨by decide, search_blank_no_retrieval [⟨1, 2⟩] "   " 1 (by decide)⟩

/-- C5: search is deterministic — against an unchanged corpus (the same
multiset of scored entries, however presented) `search(q, p)` returns
identical results: the same recipe ids in the same order. -/
theorem search_deterministic (e₁ e₂ : List ScoredEntry) (q : String) (p : Int)
    (h : e₁.Perm e₂) : searchModel e₁ q p = searchModel e₂ q p := by
  have hsort : List.insertionSort RankRel e₁ = List.insertionSort RankRel e₂ :=
    List.eq_of_perm_of_sorted
      ((List.perm_insertionSort RankRel e₁).trans
        (h.trans (List.perm_insertionSort RankRel e₂).symm))
      (List.sorted_insertionSort RankRel e₁)
      (List.sorted_insertionSort RankRel e₂)
  simp only [searchModel, hsort]

theorem search_deterministic_witness :
    searchModel [⟨1, 2⟩, ⟨2, 2⟩] "pasta" 1 = searchModel [⟨2, 2⟩, ⟨1, 2⟩] "pasta" 1 :=
  search_deterministic [⟨1, 2⟩, ⟨2, 2⟩] [⟨2, 2⟩, ⟨1, 2⟩] "pasta" 1
    (List.Perm.swap (⟨2, 2⟩ : ScoredEntry) ⟨1, 2⟩ [])

/-- Per-query counts over the three sliding windows of the Trending
Aggregator (docs/CI_STATUS_SUMMARY.md: last 1 hour, 6 hours, 24 hours). -/
structure LogCounts where
  query : String
  recentCount : Nat
  mediumCount : Nat
  dailyCount : Nat
deriving DecidableEq

/-- A published trending item (spec section 3). -/
structure TrendingItem where
  query : String
  count : Nat
  trend : String
  percentChange : Option ℚ
deriving DecidableEq

/-- Trending score from docs/CI_STATUS_SUMMARY.md:
`score = (recent_count * 3 + medium_count * 2 + daily_count) / time_decay_factor`. -/
def trendScore (recent medium daily decay : ℚ) : ℚ :=
  (recent * 3 + medium * 2 + daily) / decay

/-- Percent change against the previously published score, omitted when the
previous score is 0 (spec section 4.5). -/
def percentChangeOf (current previous : ℚ) : Option ℚ :=
  if previous = 0 then none else some ((current - previous) / previous * 100)

/-- Trend direction against the previously published score (spec section 4.5). -/
def classifyTrend (current previous : ℚ) : String :=
  if previous < current then "up" else if current < previous then "down" else "stable"

/-- Ordering used to rank trending candidates: score descending. -/
def ScoreRel (a b : LogCounts × ℚ) : Prop := b.2 ≤ a.2

instance : DecidableRel ScoreRel := fun a b =>
  inferInstanceAs (Decidable (b.2 ≤ a.2))

/-- Modelled from the spec: the backend Trending Aggregator (absent from the
tree; algorithm documented in docs/CI_STATUS_SUMMARY.md).  Queries with a
daily count of at least MIN_COUNT are scored, ranked by score descending and
truncated to the top K = 10; each kept query is classified against its score
in the previously published snapshot. -/
def aggregate (decay : ℚ) (prevScore : String → ℚ) (counts : List LogCounts) :
    List TrendingItem :=
  let qualified := counts.filter (fun c => MIN_COUNT ≤ c.dailyCount)
  let scored := qualified.map (fun c =>
    (c, trendScore c.recentCount c.mediumCount c.dailyCount decay))
  let ranked := List.insertionSort ScoreRel scored
  (ranked.take TRENDING_K).map (fun p =>
    { query := p.1.query, count := p.1.dailyCount,
      trend := classifyTrend p.2 (prevScore p.1.query),
      percentChange := percentChangeOf p.2 (prevScore p.1.query) })

/-- Snapshots the Trending Cache can ever publish: the initial empty snapshot,
or the output of an aggregation run (the cache is replaced wholesale by the
aggregator and by nothing else; on failure the previous snapshot is kept). -/
inductive PublishedTrending : List TrendingItem → Prop
  | init : PublishedTrending []
  | publish (decay : ℚ) (prevScore : String → ℚ) (counts : List LogCounts)
      (prev : List TrendingItem) : PublishedTrending prev →
      PublishedTrending (aggregate decay prevScore counts)

/-- C3: with recentCount = 10, mediumCount = 30, dailyCount = 50 and
timeDecayFactor = 10 the score is exactly 14; against a previous published
score of 10 the classification is "up" with percentChange = 40. -/
theorem trending_score_example :
    trendScore 10 30 50 10 = 14
    ∧ classifyTrend (trendScore 10 30 50 10) 10 = "up"
    ∧ percentChangeOf (trendScore 10 30 50 10) 10 = some 40 := by
  have h : trendScore 10 30 50 10 = 14 := by
    norm_num [trendScore]
  refine ⟨h, ?_, ?_⟩
  · rw [h]
    norm_num [classifyTrend]
  · rw [h]
    norm_num [percentChangeOf]

/-- C4: at every time, the currently published trending list contains at most
10 items, and every item in it has count at least 5. -/
theorem trending_invariant (items : List TrendingItem)
    (h : PublishedTrending items) :
    items.length ≤ 10 ∧ ∀ it ∈ items, 5 ≤ it.count := by
  induction h with
  | init => exact ⟨by simp, by simp⟩
  | publish decay prevScore counts prev hprev ih =>
    constructor
    · calc (aggregate decay prevScore counts).length
          ≤ TRENDING_K := by
            simp only [aggregate, List.length_map, List.length_take]
            exact min_le_left _ _
        _ = 10 := rfl
    · intro it hit
      simp only [aggregate, List.mem_map] at hit
      obtain ⟨p, hp, rfl⟩ := hit
      have hp2 : p ∈ List.insertionSort ScoreRel
          ((counts.filter (fun c => MIN_COUNT ≤ c.dailyCount)).map (fun c =>
            (c, trendScore c.recentCount c.mediumCount c.dailyCount decay))) :=
        List.mem_of_mem_take hp
      have hp3 := (List.perm_insertionSort ScoreRel _).subset hp2
      simp only [List.mem_map] at hp3
      obtain ⟨c, hc, rfl⟩ := hp3
      have := (List.mem_filter.mp hc).2
      simpa [MIN_COUNT] using this

theorem trending_invariant_witness :
    (aggregate 10 (fun _ => 0) [⟨"pasta", 10, 30, 50⟩]).length ≤ 10
    ∧ ∀ it ∈ aggregate 10 (fun _ => 0) [⟨"pasta", 10, 30, 50⟩], 5 ≤ it.count :=
  trending_invariant (aggregate 10 (fun _ => 0) [⟨"pasta", 10, 30, 50⟩])
    (PublishedTrending.publish 10 (fun _ => 0) [⟨"pasta", 10, 30, 50⟩] []
      PublishedTrending.init)

/-- A vocabulary term with its corpus frequency (spec section 3). -/
structure VocabularyEntry where
  term : String
  frequency : Nat
deriving DecidableEq

/-- Result shape of the Spell Corrector contract (spec section 4.1). -/
structure CorrectionResult where
  corrected : String
  changed : Bool
  original : String
deriving DecidableEq

/-- Levenshtein edit distance on character lists. -/
def editDist : List Char → List Char → Nat
  | [], ys => ys.length
  | x :: xs, [] => (x :: xs).length
  | x :: xs, y :: ys =>
    if x = y then editDist xs ys
    else 1 + min (editDist xs (y :: ys)) (min (editDist (x :: xs) ys) (editDist xs ys))
termination_by xs ys => xs.length + ys.length
decreasing_by all_goals (simp [List.length_cons]; try omega)

/-- Maximum accepted edit distance: 1, or 2 for queries longer than 6
characters (spec section 4.1). -/
def maxEditDistance (query : String) : Nat :=
  if 6 < query.length then 2 else 1

/-- Acceptance criteria for a correction candidate (spec section 4.1): length
differs by at most 2, edit distance within the threshold, and corpus frequency
above the minimum support threshold. -/
def qualifies (minSupport : Nat) (query : String) (e : VocabularyEntry) : Bool :=
  e.term.length ≤ query.length + 2 && query.length ≤ e.term.length + 2
    && editDist query.data e.term.data ≤ maxEditDistance query
    && minSupport < e.frequency

/-- Tie-break between qualifying candidates: higher frequency wins, then the
lexicographically smaller term (spec section 4.1). -/
def betterCandidate (a b : VocabularyEntry) : Bool :=
  b.frequency < a.frequency || (a.frequency = b.frequency && a.term ≤ b.term)

/-- Modelled from the spec: the backend Spell Corrector (`correct` of the
Flask service, absent from the tree).  Queries shorter than 3 characters are
returned unchanged; otherwise the best qualifying vocabulary candidate is
chosen, and if none qualifies the original query is returned unchanged
(spec section 4.1). -/
def correct (minSupport : Nat) (vocab : List VocabularyEntry) (query : String) :
    CorrectionResult :=
  if query.length < 3 then ⟨query, false, query⟩
  else
    match vocab.filter (qualifies minSupport query) with
    | [] => ⟨query, false, query⟩
    | c :: cs =>
      let best := cs.foldl (fun acc e => if betterCandidate e acc then e else acc) c
      if best.term = query then ⟨query, false, query⟩ else ⟨best.term, true, query⟩

/-- C6: for every query shorter than 3 characters, and for every query for
which no candidate meets the acceptance criteria, correct returns the original
query unchanged with changed = false. -/
theorem spell_correct_unchanged (minSupport : Nat) (vocab : List VocabularyEntry)
    (query : String)
    (h : query.length < 3 ∨ vocab.filter (qualifies minSupport query) = []) :
    correct minSupport vocab query = ⟨query, false, query⟩ := by
  rcases h with h | h
  · simp [correct, h]
  · rcases Nat.lt_or_ge query.length 3 with hl | hl
    · simp [correct, hl]
    · rw [correct, if_neg (by omega), h]

theorem spell_correct_unchanged_witness :
    ("xz".length < 3 ∨ [VocabularyEntry.mk "malai" 100].filter (qualifies 0 "xz") = [])
    ∧ correct 0 [VocabularyEntry.mk "malai" 100] "xz"
        = ⟨"xz", false, "xz"⟩ :=
  ⟨Or.inl (by decide),
    spell_correct_unchanged 0 [VocabularyEntry.mk "malai" 100] "xz"
      (Or.inl (by decide))⟩

/-- Outcome of the frontend suggestion fetch (App.js fetchSuggestions):
the rendered suggestions, whether a backend lookup was attempted, and whether
an error escaped to the caller. -/
structure SuggestOutcome where
  suggestions : List String
  lookupAttempted : Bool
  errorRaised : Bool
deriving DecidableEq

/-- Embedding of fetchSuggestions (frontend/src/App.js lines 199 to 218, and
fetchAndDisplaySuggestions in frontend/public/script.js lines 397 to 404):
queries shorter than 2 characters clear the suggestions and return without
contacting the backend; a backend failure is caught and degrades to the empty
list.  The backend is an oracle from query to an optional suggestion list,
none meaning the fetch failed. -/
def fetchSuggestions (backend : String → Option (List String)) (query : String) :
    SuggestOutcome :=
  if query.length < 2 then ⟨[], false, false⟩
  else
    match backend query with
    | some items => ⟨items, true, false⟩
    | none => ⟨[], true, false⟩

/-- C7: for every prefix shorter than 2 characters, the suggestion fetch
returns the empty sequence, never raises an error, and attempts no backend
lookup. -/
theorem suggest_short_query (backend : String → Option (List String))
    (query : String) (h : query.length < 2) :
    fetchSuggestions backend query = ⟨[], false, false⟩ := by
  simp [fetchSuggestions, h]

theorem suggest_short_query_witness :
    "a".length < 2
    ∧ fetchSuggestions (fun _ => none) "a" = ⟨[], false, false⟩ :=
  ⟨by decide, suggest_short_query (fun _ => none) "a" (by decide)⟩

/-- Substring test on character lists: does the second list occur as a prefix
of the first? -/
def startsWith : List Char → List Char → Bool
  | _, [] => true
  | [], _ :: _ => false
  | x :: xs, y :: ys => x = y && startsWith xs ys

/-- Substring occurrence test, embedding the JavaScript
`error.message.includes(pat)` checks of ErrorBoundary.js. -/
def containsSubL (pat : List Char) : List Char → Bool
  | [] => startsWith [] pat
  | x :: rest => startsWith (x :: rest) pat || containsSubL pat rest

def containsSub (s pat : String) : Bool := containsSubL pat.data s.data

/-- Embedding of the backend-error test of ErrorPage
(frontend/src/ErrorBoundary.js lines 29 to 31). -/
def isBackendErrorMsg (msg : Option String) : Bool :=
  match msg with
  | none => false
  | some m => containsSub m "fetch" || containsSub m "Failed to fetch"
      || containsSub m "Network"

/-- What the ErrorPage component renders (frontend/src/ErrorBoundary.js lines
28 to 122): a fixed heading, a body chosen by the backend-error test, a retry
button exactly when an onRetry handler was passed, and a caption interpolating
the raw error message. -/
structure ErrorPageView where
  heading : String
  showsBackendFriendlyBody : Bool
  hasRetryButton : Bool
  caption : String
deriving DecidableEq

/-- Embedding of the ErrorPage render (frontend/src/ErrorBoundary.js):
`msg` is the optional `error.message`; the caption is
`Error: {error.message or Unknown error occurred}` (line 117). -/
def renderErrorPage (msg : Option String) (hasRetry : Bool) : ErrorPageView :=
  { heading := "Oops! Something went wrong",
    showsBackendFriendlyBody := isBackendErrorMsg msg,
    hasRetryButton := hasRetry,
    caption := "Error: " ++ msg.getD "Unknown error occurred" }

/-- Embedding of the retry handler App passes to ErrorPage
(frontend/src/App.js lines 314 to 319): it clears the error and re-runs
handleSearch with the current searchQuery and page, doing nothing when the
query is empty.  The returned pair is the (query, page) re-executed. -/
def retryTarget (searchQuery : String) (page : Nat) : Option (String × Nat) :=
  if searchQuery = "" then none else some (searchQuery, page)

/-- C8 counterexample: at the concrete retrieval failure whose message is
"Failed to fetch", the page rendered for the user contains the raw internal
error message in its caption, contradicting the claim that a raw internal
error is never shown. -/
theorem error_page_shows_raw_message :
    (renderErrorPage (some "Failed to fetch") true).caption
        = "Error: Failed to fetch"
    ∧ containsSub (renderErrorPage (some "Failed to fetch") true).caption
        "Failed to fetch" = true := by
  constructor
  · rfl
  · decide

/-- C8 (amended): on a retrieval failure the user sees the generic error page
with a retry affordance that re-executes the same query and page, but the raw
error message is additionally rendered in the caption at the bottom of the
page. -/
theorem error_page_retry_same_query (msg searchQuery : String) (page : Nat)
    (h : searchQuery ≠ "") :
    (renderErrorPage (some msg) true).heading = "Oops! Something went wrong"
    ∧ (renderErrorPage (some msg) true).hasRetryButton = true
    ∧ retryTarget searchQuery page = some (searchQuery, page)
    ∧ (renderErrorPage (some msg) true).caption = "Error: " ++ msg := by
  refine ⟨rfl, rfl, ?_, rfl⟩
  simp [retryTarget, h]

theorem error_page_retry_same_query_witness :
    "pasta" ≠ ""
    ∧ ((renderErrorPage (some "Failed to fetch") true).heading
          = "Oops! Something went wrong"
      ∧ (renderErrorPage (some "Failed to fetch") true).hasRetryButton = true
      ∧ retryTarget "pasta" 2 = some ("pasta", 2)
      ∧ (renderErrorPage (some "Failed to fetch") true).caption
          = "Error: " ++ "Failed to fetch") :=
  ⟨by decide, error_page_retry_same_query "Failed to fetch" "pasta" 2 (by decide)⟩

/-- Suggestion-related state of the App component: the rendered suggestions
and the optional backend error driving the error page. -/
structure AppSuggestState where
  suggestions : List String
  backendError : Option String
deriving DecidableEq

/-- Embedding of fetchSuggestions as a state transformer on the App component
(frontend/src/App.js lines 199 to 218): short queries clear suggestions; a
successful fetch stores the suggestions and clears any previous error; a
failed fetch is caught, clears the suggestions and deliberately does not set
the backend error (line 216: fail silently). -/
def fetchSuggestionsApp (backend : String → Option (List String))
    (st : AppSuggestState) (query : String) : AppSuggestState :=
  if query.length < 2 then { st with suggestions := [] }
  else
    match backend query with
    | some items => { suggestions := items, backendError := none }
    | none => { st with suggestions := [] }

/-- Embedding of the TrendingSearches render
(frontend/src/components/TrendingSearches.js lines 39 to 75): the fetch
outcome is none on failure; on failure, or when the fetched list is empty,
the component renders nothing. -/
def renderTrending (fetched : Option (List TrendingItem)) :
    Option (List TrendingItem) :=
  match fetched with
  | none => none
  | some items => if items.isEmpty then none else some items

/-- C9: when the suggestion fetch fails the caller does not fail and no error
is surfaced: suggestions degrade to the empty list and the backend-error state
is left untouched; when the trending fetch fails the component renders
nothing. -/
theorem fetch_failures_degrade (backend : String → Option (List String))
    (st : AppSuggestState) (query : String) (h : backend query = none) :
    (fetchSuggestionsApp backend st query).suggestions = []
    ∧ (fetchSuggestionsApp backend st query).backendError = st.backendError
    ∧ renderTrending none = none := by
  refine ⟨?_, ?_, rfl⟩ <;>
    · rw [fetchSuggestionsApp]
      split
      · rfl
      · rw [h]

theorem fetch_failures_degrade_witness :
    ((fun _ : String => (none : Option (List String))) "pasta" = none)
    ∧ ((fetchSuggestionsApp (fun _ => none) ⟨["x"], some "boom"⟩ "pasta").suggestions = []
      ∧ (fetchSuggestionsApp (fun _ => none) ⟨["x"], some "boom"⟩ "pasta").backendError
          = (⟨["x"], some "boom"⟩ : AppSuggestState).backendError
      ∧ renderTrending none = none) :=
  ⟨rfl, fetch_failures_degrade (fun _ => none) ⟨["x"], some "boom"⟩ "pasta" rfl⟩

/-- A recipe object as delivered by the backend search response: every field
beyond id and name may be missing (frontend/src/App.js lines 243 to 255 read
them with JavaScript defaulting). -/
structure RawRecipe where
  id : Nat
  name : String
  calories : Option String
  image : Option String
  rating : Option String
  reviews : Option String
  url : Option String
  ingredients : Option (List String)
  instructions : Option (List String)
  nutrition : Option (List (String × String))
  additionalInfo : Option (List (String × String))
deriving DecidableEq

/-- A recipe object as stored into the frontend result list after the
normalization of handleSearch (frontend/src/App.js lines 243 to 255). -/
structure RecipeView where
  id : Nat
  name : String
  calories : Option String
  image : String
  rating : String
  reviews : String
  url : String
  ingredients : List String
  instructions : List String
  nutrition : List (String × String)
  additionalInfo : List (String × String)
deriving DecidableEq

/-- Embedding of the recipe mapping of handleSearch (frontend/src/App.js
lines 243 to 255): id, name and calories pass through; the other fields get
defaults when missing. -/
def normalizeRecipe (r : RawRecipe) : RecipeView :=
  { id := r.id, name := r.name, calories := r.calories,
    image := r.image.getD "", rating := r.rating.getD "0",
    reviews := r.reviews.getD "0", url := r.url.getD "",
    ingredients := r.ingredients.getD [],
    instructions := r.instructions.getD [],
    nutrition := r.nutrition.getD [],
    additionalInfo := r.additionalInfo.getD [] }

/-- A raw recipe with every optional field missing, as the backend may send. -/
def rawNoCalories : RawRecipe :=
  ⟨7, "plain toast", none, none, none, none, none, none, none, none, none⟩

/-- C10 counterexample: a delivered recipe can still carry a null field — the
calories field is passed through without a default, so a raw recipe with
missing calories yields a result-list object whose calories is null. -/
theorem normalize_calories_can_be_null :
    (normalizeRecipe rawNoCalories).calories = none
    ∧ (normalizeRecipe rawNoCalories).calories.isSome = false := by
  exact ⟨rfl, rfl⟩

/-- C10 (amended): after a successful search every delivered recipe has all
fields except calories non-null: a missing image or url becomes the empty
string, a missing rating or reviews becomes "0", missing ingredients or
instructions become the empty list, missing nutrition or additionalInfo become
the empty mapping, a present optional field passes through, and id, name and
calories are passed through unchanged. -/
theorem normalize_recipe_fields (r : RawRecipe) :
    (normalizeRecipe r).id = r.id
    ∧ (normalizeRecipe r).name = r.name
    ∧ (normalizeRecipe r).calories = r.calories
    ∧ (r.image = none → (normalizeRecipe r).image = "")
    ∧ (∀ v, r.image = some v → (normalizeRecipe r).image = v)
    ∧ (r.url = none → (normalizeRecipe r).url = "")
    ∧ (∀ v, r.url = some v → (normalizeRecipe r).url = v)
    ∧ (r.rating = none → (normalizeRecipe r).rating = "0")
    ∧ (∀ v, r.rating = some v → (normalizeRecipe r).rating = v)
    ∧ (r.reviews = none → (normalizeRecipe r).reviews = "0")
    ∧ (∀ v, r.reviews = some v → (normalizeRecipe r).reviews = v)
    ∧ (r.ingredients = none → (normalizeRecipe r).ingredients = [])
    ∧ (∀ v, r.ingredients = some v → (normalizeRecipe r).ingredients = v)
    ∧ (r.instructions = none → (normalizeRecipe r).instructions = [])
    ∧ (∀ v, r.instructions = some v → (normalizeRecipe r).instructions = v)
    ∧ (r.nutrition = none → (normalizeRecipe r).nutrition = [])
    ∧ (∀ v, r.nutrition = some v → (normalizeRecipe r).nutrition = v)
    ∧ (r.additionalInfo = none → (normalizeRecipe r).additionalInfo = [])
    ∧ (∀ v, r.additionalInfo = some v → (normalizeRecipe r).additionalInfo = v) := by
  refine ⟨rfl, rfl, rfl, ?_, ?_, ?_, ?_, ?_, ?_, ?_, ?_, ?_, ?_, ?_, ?_, ?_, ?_, ?_, ?_⟩ <;>
    first
      | (intro h; simp [normalizeRecipe, h])
      | (intro v h; simp [normalizeRecipe, h])

theorem normalize_recipe_fields_witness :
    (normalizeRecipe rawNoCalories).id = rawNoCalories.id
    ∧ (normalizeRecipe rawNoCalories).name = rawNoCalories.name
    ∧ (normalizeRecipe rawNoCalories).calories = rawNoCalories.calories
    ∧ (rawNoCalories.image = none → (normalizeRecipe rawNoCalories).image = "")
    ∧ (∀ v, rawNoCalories.image = some v → (normalizeRecipe rawNoCalories).image = v)
    ∧ (rawNoCalories.url = none → (normalizeRecipe rawNoCalories).url = "")
    ∧ (∀ v, rawNoCalories.url = some v → (normalizeRecipe rawNoCalories).url = v)
    ∧ (rawNoCalories.rating = none → (normalizeRecipe rawNoCalories).rating = "0")
    ∧ (∀ v, rawNoCalories.rating = some v → (normalizeRecipe rawNoCalories).rating = v)
    ∧ (rawNoCalories.reviews = none → (normalizeRecipe rawNoCalories).reviews = "0")
    ∧ (∀ v, rawNoCalories.reviews = some v → (normalizeRecipe rawNoCalories).reviews = v)
    ∧ (rawNoCalories.ingredients = none → (normalizeRecipe rawNoCalories).ingredients = [])
    ∧ (∀ v, rawNoCalories.ingredients = some v → (normalizeRecipe rawNoCalories).ingredients = v)
    ∧ (rawNoCalories.instructions = none → (normalizeRecipe rawNoCalories).instructions = [])
    ∧ (∀ v, rawNoCalories.instructions = some v → (normalizeRecipe rawNoCalories).instructions = v)
    ∧ (rawNoCalories.nutrition = none → (normalizeRecipe rawNoCalories).nutrition = [])
    ∧ (∀ v, rawNoCalories.nutrition = some v → (normalizeRecipe rawNoCalories).nutrition = v)
    ∧ (rawNoCalories.additionalInfo = none → (normalizeRecipe rawNoCalories).additionalInfo = [])
    ∧ (∀ v, rawNoCalories.additionalInfo = some v →
        (normalizeRecipe rawNoCalories).additionalInfo = v) :=
  normalize_recipe_fields rawNoCalories

end Tastory
